import Mathlib

/-!
Verification of the `datafile_test` attribute-macro expansion engine
(`src/lib.rs` of the `datafile-test` crate).

The engine is a pure, deterministic transformation from an annotation
(a file-path string literal) and a function item to either a diagnostic
error or a list of generated test units.  We embed it shallowly:

* the external collaborators the source calls (`fs::read_to_string`,
  `serde_json::from_str::<Vec<Value>>`, `serde_yaml::from_str`,
  `serde_json::to_string`, `syn::parse_str::<Expr>`) are fields of an
  `Env` record of explicit functions, since they are library code, not
  code of this repository;
* the syntactic inputs (`syn::ItemFn`, `syn::FnArg`, `syn::Pat`) are
  reduced to exactly the structure the macro inspects: the function
  identifier, the opaque body block (carried verbatim as a string), and
  the argument list, where an argument is either a `self` receiver or a
  typed binding `pat : ty` (the macro never looks inside `pat` or `ty`,
  so both are carried opaquely, `ty` as its rendered text);
* the emitted token stream is a list of `GenUnit`s: either a generated
  test function or an inline `compile_error!` fragment, matching the two
  outcomes of the per-entry closure at lines 143-181 of the source.

Early `return ... .to_compile_error().into()` in the Rust function body
is modelled as the `.error` branch of `Except String (List GenUnit)`;
the per-entry `return ... .to_compile_error()` inside the `map` closure
only leaves the closure, and is modelled as a `GenUnit.compileError`
element of the emitted list.
-/

set_option autoImplicit false

namespace DatafileTest

/-- A generic structured value, as `serde_json::Value`: the common
interchange form both decoders produce (`Vec<serde_json::Value>` at
line 106 of the source).  The engine never inspects its shape. -/
inductive Value where
  | null
  | bool (b : Bool)
  | num (n : Int)
  | str (s : String)
  | arr (elems : List Value)
  | obj (fields : List (String × Value))

/-- A reduced `syn::Pat`: the macro binds `pat_type` at line 76 but never
reads the pattern, so only enough constructors to distinguish a plain
identifier binding from pattern/reference forms are needed. -/
inductive Pat where
  | ident (name : String)
  | wild
  | tuple (elems : List Pat)
  | ref (inner : Pat)

/-- A reduced `syn::FnArg` (line 75): a `self` receiver, or a typed
binding `pat : ty` with the type carried as its rendered text (the
source only ever re-renders it with `quote!(#test_case_type)`). -/
inductive FnArg where
  | receiver
  | typed (pat : Pat) (ty : String)

/-- A reduced `syn::ItemFn`: identifier, argument list, and the body
block carried opaquely (the source copies `#fn_body` verbatim at
line 178). -/
structure ItemFn where
  ident : String
  inputs : List FnArg
  body : String

/-- One element of the emitted token stream: either a generated
`#[test] fn <name>() { let testcase: <ty> = serde_json::from_str::<ty>
(<jsonStr as a literal>).unwrap(); <body> }` (lines 174-180), or an
inline `compile_error!` produced by the per-entry closure
(lines 150-155 and 166-171). -/
inductive GenUnit where
  | testFn (name boundVar ty jsonStr body : String)
  | compileError (msg : String)
deriving DecidableEq

/-- The external collaborators called by the macro, as explicit
functions: filesystem read, the two decoders (each decoding the full
text into a top-level sequence, so a well-formed document that is not a
sequence is a decode error inside the collaborator), the canonical JSON
serializer, and the `syn` expression parser (modelled as a success
gate). -/
structure Env where
  readFile : String → Except String String
  jsonDecode : String → Except String (List Value)
  yamlDecode : String → Except String (List Value)
  toJsonString : Value → Except String String
  parseExpr : String → Except String Unit

/-- Rust `{:?}` (`Debug`) rendering of a string: quote-delimited with
the common escapes.  (Rust additionally escapes other control and some
unicode characters; no claim depends on those.) -/
def rustDebugChar (c : Char) : String :=
  if c = '"' then "\\\""
  else if c = '\\' then "\\\\"
  else if c = '\n' then "\\n"
  else if c = '\t' then "\\t"
  else if c = '\r' then "\\r"
  else String.singleton c

/-- Rust `{:?}` rendering of a whole string. -/
def rustDebug (s : String) : String :=
  "\"" ++ String.join (s.toList.map rustDebugChar) ++ "\""

/-- ASCII lower-casing of one character.  (Rust `str::to_lowercase` is
full Unicode; file extensions here are ASCII, and no claim depends on
non-ASCII case folding.) -/
def lowerChar (c : Char) : Char :=
  if 'A' ≤ c ∧ c ≤ 'Z' then Char.ofNat (c.toNat + 32) else c

/-- The final path component (`std::path::Path` file name, separator
`/`), as characters. -/
def fileNameChars (cs : List Char) : List Char :=
  cs.foldl (fun acc c => if c = '/' then [] else acc ++ [c]) []

/-- One left-to-right scan splitting a file name at its last `.`:
returns the characters before the last dot so far and, when a dot has
been seen, the characters after it. -/
def extScan (cs : List Char) : List Char × Option (List Char) :=
  cs.foldl
    (fun st c =>
      match st with
      | (pre, none) => if c = '.' then (pre, some []) else (pre ++ [c], none)
      | (pre, some post) =>
        if c = '.' then (pre ++ '.' :: post, some []) else (pre, some (post ++ [c])))
    ([], none)

/-- `std::path::Path::extension` (line 101): the part of the file name
after its last `.`; `none` when there is no `.`, or when the only `.`
is the leading one of a hidden file. -/
def extensionOf (p : String) : Option String :=
  match extScan (fileNameChars p.toList) with
  | (_, none) => none
  | ([], some _) => none
  | (_, some post) => some (String.mk post)

/-- Lines 100-104: extension of the path, `unwrap_or_default()`, then
lower-cased. -/
def lowerExt (path : String) : String :=
  String.mk (((extensionOf path).getD "").toList.map lowerChar)

/-- Diagnostic text of lines 67-70. -/
def arityErr : String :=
  "datafile_test function must have exactly one argument"

/-- Diagnostic text of lines 78-81. -/
def argShapeErr : String :=
  "datafile_test function must take a structured argument"

/-- Diagnostic text of lines 91-94 (`'{:?}'` renders the path with
`Debug`). -/
def readErr (path e : String) : String :=
  "Failed to read data file '" ++ rustDebug path ++ "': " ++ e

/-- Diagnostic text of lines 110-113. -/
def jsonParseErr (path e : String) : String :=
  "Failed to parse JSON file '" ++ rustDebug path ++ "': " ++ e

/-- Diagnostic text of lines 121-124. -/
def yamlParseErr (path e : String) : String :=
  "Failed to parse YAML file '" ++ rustDebug path ++ "': " ++ e

/-- Diagnostic text of lines 130-133. -/
def unsupportedExtErr (ext : String) : String :=
  "Unsupported file extension: " ++ rustDebug ext

/-- Diagnostic text of lines 150-153. -/
def toJsonErr (e : String) : String :=
  "Failed to convert test case to JSON: " ++ e

/-- Diagnostic text of lines 166-169. -/
def exprParseErr (e : String) : String :=
  "Failed to parse test case JSON as Rust expression: " ++ e

/-- The source text handed to `syn::parse_str` at lines 159-163:
`serde_json::from_str::<{ty}>({json_str:?}).unwrap()`. -/
def exprSrc (ty jsonStr : String) : String :=
  "serde_json::from_str::<" ++ ty ++ ">(" ++ rustDebug jsonStr ++ ").unwrap()"

/-- The per-entry closure of lines 143-181: serialize the entry back to
canonical JSON text, parse the deserialization expression, and emit the
generated test function; either failure emits an inline
`compile_error!` for this entry only (the `return` at lines 150-155 and
166-171 leaves just the closure).  The bound variable of the generated
`let` is the literal identifier `testcase` written in the `quote!` at
line 177. -/
def genUnit (env : Env) (fnName ty body : String) (i : Nat) (tc : Value) : GenUnit :=
  match env.toJsonString tc with
  | .error e => .compileError (toJsonErr e)
  | .ok jsonStr =>
    match env.parseExpr (exprSrc ty jsonStr) with
    | .error e => .compileError (exprParseErr e)
    | .ok _ =>
      .testFn (fnName ++ "_case_" ++ toString i) "testcase" ty jsonStr body

/-- `test_cases.iter().enumerate().map(..)` (lines 140-182), written as
index-carrying recursion: one `GenUnit` per entry, in document order,
the index starting at `i`. -/
def genUnitsFrom (env : Env) (fnName ty body : String) : Nat → List Value → List GenUnit
  | _, [] => []
  | i, tc :: rest =>
    genUnit env fnName ty body i tc :: genUnitsFrom env fnName ty body (i + 1) rest

/-- The full generation loop: indices from 0. -/
def genUnits (env : Env) (fnName ty body : String) (cases : List Value) : List GenUnit :=
  genUnitsFrom env fnName ty body 0 cases

/-- Lines 106-137: select the decoder by the lower-cased extension and
decode the full text into a top-level sequence; the `_` arm is the
unsupported-extension error. -/
def decodeByExt (env : Env) (path ext text : String) : Except String (List Value) :=
  if ext = "json" then
    match env.jsonDecode text with
    | .ok cases => .ok cases
    | .error e => .error (jsonParseErr path e)
  else if ext = "yaml" ∨ ext = "yml" then
    match env.yamlDecode text with
    | .ok cases => .ok cases
    | .error e => .error (yamlParseErr path e)
  else
    .error (unsupportedExtErr ext)

/-- Lines 87-188, after the signature checks: read the file, decode by
extension, and emit one unit per entry.  Every `.error` here is an
early `return ..to_compile_error().into()` of the Rust function. -/
def expandTyped (env : Env) (path fnName ty body : String) : Except String (List GenUnit) :=
  match env.readFile path with
  | .error e => .error (readErr path e)
  | .ok text =>
    match decodeByExt env path (lowerExt path) text with
    | .error e => .error e
    | .ok cases => .ok (genUnits env fnName ty body cases)

/-- The whole macro, `datafile_test` (lines 54-189).  The annotation
argument has already been parsed as a string literal (line 56, upstream
of everything modelled here), so the path is taken as a string.  The
`match` mirrors the source exactly: `fn_args.len() != 1` is the arity
error (lines 66-73); a single argument that is a receiver is the
argument-shape error (lines 75-85); a single typed argument proceeds,
its pattern never read. -/
def datafile_test (env : Env) (filePath : String) (fn : ItemFn) :
    Except String (List GenUnit) :=
  if fn.inputs.length ≠ 1 then
    .error arityErr
  else
    match fn.inputs with
    | [FnArg.receiver] => .error argShapeErr
    | [FnArg.typed _pat ty] => expandTyped env filePath fn.ident ty fn.body
    | _ => .error arityErr  -- unreachable under the guard (`fn_args.first().unwrap()`)

/-- The bound variable of a generated unit's `let`, when the unit is a
test function. -/
def GenUnit.boundVar : GenUnit → Option String
  | .testFn _ b _ _ _ => some b
  | .compileError _ => none

/-- Modelled from the spec: the run-time behaviour of one generated
test unit, which is code outside this repository (the generated
fragment is compiled and run by `rustc`/the test harness, with
`serde_json::from_str::<T>(..).unwrap()` aborting the unit on a
deserialization error).  A unit either panics with a message or
finishes with the body's result. -/
inductive RunOutcome (ρ : Type) where
  | panicked (msg : String)
  | finished (r : ρ)

/-- Modelled from the spec: executing one emitted unit.  `deser` is the
declared parameter type's deserializer (`serde_json::from_str::<T>`),
`runBody` interprets the verbatim body on the bound value.  A
`compile_error!` fragment never runs (`none`); a generated test
function runs its `let` then its body, `.unwrap()` turning a
deserialization error into a panic that aborts exactly this unit. -/
def runUnit {β ρ : Type} (deser : String → Except String β)
    (runBody : String → β → ρ) : GenUnit → Option (RunOutcome ρ)
  | .compileError _ => none
  | .testFn _ _ _ jsonStr body =>
    some (match deser jsonStr with
          | .error e => .panicked e
          | .ok v => .finished (runBody body v))

/-! ### Concrete fixtures for witnesses and counterexamples

Each `Env` below instantiates the external collaborators with small
total functions, so that closed runs of the engine evaluate by `rfl`. -/

/-- Every collaborator succeeds; the file decodes to the one-entry
sequence `[1]`. -/
def envOk : Env where
  readFile := fun _ => .ok "[1]"
  jsonDecode := fun _ => .ok [Value.num 1]
  yamlDecode := fun _ => .ok []
  toJsonString := fun _ => .ok "1"
  parseExpr := fun _ => .ok ()

/-- Every collaborator succeeds; the file decodes to the two-entry
sequence `[1, 2]` under both decoders, and re-serialization renders a
number as its decimal text. -/
def envOk2 : Env where
  readFile := fun _ => .ok "[1,2]"
  jsonDecode := fun _ => .ok [Value.num 1, Value.num 2]
  yamlDecode := fun _ => .ok [Value.num 1, Value.num 2]
  toJsonString := fun v =>
    match v with
    | Value.num n => .ok (toString n)
    | _ => .error "unsupported"
  parseExpr := fun _ => .ok ()

/-- The file decodes to `[null, 1]` and re-serialization fails on the
first entry only. -/
def envSerFail : Env where
  readFile := fun _ => .ok "[null,1]"
  jsonDecode := fun _ => .ok [Value.null, Value.num 1]
  yamlDecode := fun _ => .ok []
  toJsonString := fun v =>
    match v with
    | Value.null => .error "boom"
    | _ => .ok "1"
  parseExpr := fun _ => .ok ()

/-- The file text is YAML-only syntax: the YAML decoder accepts it, the
JSON decoder rejects it. -/
def envSniff : Env where
  readFile := fun _ => .ok "a: 1"
  jsonDecode := fun _ => .error "expected value at line 1 column 1"
  yamlDecode := fun _ => .ok [Value.obj [("a", Value.num 1)]]
  toJsonString := fun _ => .ok "x"
  parseExpr := fun _ => .ok ()

/-- The YAML decoder fails on the file text (malformed document or a
top-level non-sequence, both are decode errors of the collaborator). -/
def envYamlBad : Env where
  readFile := fun _ => .ok "a: 1"
  jsonDecode := fun _ => .ok []
  yamlDecode := fun _ => .error "invalid type: map, expected a sequence"
  toJsonString := fun _ => .ok "x"
  parseExpr := fun _ => .ok ()

/-- A function whose single parameter is the plain binding
`x: TestCase` — its name is `x`, not `testcase`. -/
def fnX : ItemFn :=
  { ident := "mytest"
    inputs := [FnArg.typed (Pat.ident "x") "TestCase"]
    body := "assert(x)" }

/-- The repository's own usage shape: single plain parameter named
`testcase`. -/
def fnTc : ItemFn :=
  { ident := "mytest"
    inputs := [FnArg.typed (Pat.ident "testcase") "TestCase"]
    body := "check(testcase)" }

/-- A function whose single parameter is a tuple pattern
`(a, b): (i32, i32)`. -/
def fnPat : ItemFn :=
  { ident := "mytest"
    inputs := [FnArg.typed (Pat.tuple [Pat.ident "a", Pat.ident "b"]) "(i32, i32)"]
    body := "assert(a + b > 0)" }

/-- A function whose single parameter is the reference form
`testcase: &TestCase`. -/
def fnRef : ItemFn :=
  { ident := "mytest"
    inputs := [FnArg.typed (Pat.ident "testcase") "&TestCase"]
    body := "check(testcase)" }

/-- A method-style function whose single argument is a `self`
receiver. -/
def fnSelf : ItemFn :=
  { ident := "mytest"
    inputs := [FnArg.receiver]
    body := "check(self)" }

/-- A function with no parameters. -/
def fnZero : ItemFn :=
  { ident := "mytest", inputs := [], body := "check()" }

/-- A function with two parameters. -/
def fnTwo : ItemFn :=
  { ident := "mytest"
    inputs := [FnArg.typed (Pat.ident "a") "A", FnArg.typed (Pat.ident "b") "B"]
    body := "check(a, b)" }

/-! ### Plumbing lemmas -/

/-- A single typed argument passes both signature checks, whatever its
pattern, and expansion proceeds on the rendered type alone. -/
theorem datafile_test_typed (env : Env) (path : String) (fn : ItemFn)
    (p : Pat) (ty : String) (hin : fn.inputs = [FnArg.typed p ty]) :
    datafile_test env path fn = expandTyped env path fn.ident ty fn.body := by
  unfold datafile_test
  rw [hin]
  rfl

/-- When the read succeeds, expansion is the decode followed by the
generation loop. -/
theorem expandTyped_eq (env : Env) (path fnName ty body text : String)
    (hread : env.readFile path = .ok text) :
    expandTyped env path fnName ty body =
      match decodeByExt env path (lowerExt path) text with
      | .error e => .error e
      | .ok cases => .ok (genUnits env fnName ty body cases) := by
  unfold expandTyped
  rw [hread]

/-- When the read and the decode succeed, expansion emits exactly the
generation loop's output. -/
theorem expandTyped_ok (env : Env) (path fnName ty body text : String)
    (cases : List Value)
    (hread : env.readFile path = .ok text)
    (hdec : decodeByExt env path (lowerExt path) text = .ok cases) :
    expandTyped env path fnName ty body = .ok (genUnits env fnName ty body cases) := by
  simp [expandTyped, hread, hdec]

/-- A `json` extension selects the JSON decoder, and nothing else. -/
theorem decodeByExt_json (env : Env) (path text : String) :
    decodeByExt env path "json" text =
      match env.jsonDecode text with
      | .ok cases => .ok cases
      | .error e => .error (jsonParseErr path e) := rfl

/-- A `yaml` or `yml` extension selects the YAML decoder, and nothing
else. -/
theorem decodeByExt_yaml (env : Env) (path text ext : String)
    (hx : ext = "yaml" ∨ ext = "yml") :
    decodeByExt env path ext text =
      match env.yamlDecode text with
      | .ok cases => .ok cases
      | .error e => .error (yamlParseErr path e) := by
  rcases hx with h | h <;> subst h <;> rfl

/-- Any other extension is the unsupported-extension error. -/
theorem decodeByExt_other (env : Env) (path text ext : String)
    (h1 : ext ≠ "json") (h2 : ext ≠ "yaml") (h3 : ext ≠ "yml") :
    decodeByExt env path ext text = .error (unsupportedExtErr ext) := by
  unfold decodeByExt
  rw [if_neg h1, if_neg (not_or.mpr ⟨h2, h3⟩)]

/-- The loop emits one unit per entry, failures included. -/
theorem genUnitsFrom_length (env : Env) (fnName ty body : String) :
    ∀ (i : Nat) (cases : List Value),
      (genUnitsFrom env fnName ty body i cases).length = cases.length
  | _, [] => rfl
  | i, _ :: rest => by
    simp [genUnitsFrom, genUnitsFrom_length env fnName ty body (i + 1) rest]

/-- The unit at position `j` of the loop started at index `i` is the
unit generated for entry `j` at index `i + j`. -/
theorem genUnitsFrom_get? (env : Env) (fnName ty body : String) :
    ∀ (i j : Nat) (cases : List Value) (hj : j < cases.length),
      (genUnitsFrom env fnName ty body i cases).get? j =
        some (genUnit env fnName ty body (i + j) (cases.get ⟨j, hj⟩))
  | _, _, [], hj => absurd hj (by simp)
  | i, 0, tc :: rest, _ => rfl
  | i, j + 1, tc :: rest, hj => by
    have ih := genUnitsFrom_get? env fnName ty body (i + 1) j rest
      (Nat.lt_of_succ_lt_succ hj)
    simp only [genUnitsFrom, List.get?, List.get]
    rw [ih]
    congr 2
    omega

/-- Specialization to the full loop (index base 0). -/
theorem genUnits_get? (env : Env) (fnName ty body : String)
    (cases : List Value) (j : Nat) (hj : j < cases.length) :
    (genUnits env fnName ty body cases).get? j =
      some (genUnit env fnName ty body j (cases.get ⟨j, hj⟩)) := by
  have h := genUnitsFrom_get? env fnName ty body 0 j cases hj
  simpa [genUnits] using h

/-- When re-serialization and the expression parse both succeed, the
entry's unit is the generated test function, named by the original
function name and the index only, binding the literal identifier
`testcase` at the declared type and carrying the body verbatim. -/
theorem genUnit_ok (env : Env) (fnName ty body : String) (i : Nat)
    (tc : Value) (jsonStr : String)
    (hser : env.toJsonString tc = .ok jsonStr)
    (hexpr : env.parseExpr (exprSrc ty jsonStr) = .ok ()) :
    genUnit env fnName ty body i tc =
      .testFn (fnName ++ "_case_" ++ toString i) "testcase" ty jsonStr body := by
  simp [genUnit, hser, hexpr]

/-- When re-serialization of the entry fails, its unit is the inline
compile error of lines 150-155. -/
theorem genUnit_serErr (env : Env) (fnName ty body : String) (i : Nat)
    (tc : Value) (e : String)
    (hser : env.toJsonString tc = .error e) :
    genUnit env fnName ty body i tc = .compileError (toJsonErr e) := by
  simp [genUnit, hser]

/-! ### Claims -/

/-- C1 counterexample: the generated unit does not bind the value to
the original function's parameter name.  For the function
`fn mytest(x: TestCase)` the emitted unit's `let` binds the literal
identifier `testcase` (written in the `quote!` at line 177 of the
source), not `x`, while the body still references `x` verbatim. -/
theorem C1_counterexample :
    datafile_test envOk "tests/t.json" fnX =
      .ok [GenUnit.testFn "mytest_case_0" "testcase" "TestCase" "1" "assert(x)"] ∧
    (GenUnit.testFn "mytest_case_0" "testcase" "TestCase" "1"
      "assert(x)").boundVar = some "testcase" ∧
    fnX.inputs = [FnArg.typed (Pat.ident "x") "TestCase"] ∧
    "testcase" ≠ "x" :=
  ⟨rfl, rfl, rfl, by decide⟩

/-- C1 (amended): for every annotated function and every entry of a
successfully decoded data file, the generated unit binds the freshly
deserialized value of the declared parameter type to the fixed
identifier `testcase` — which coincides with the original parameter
name only when that name is `testcase` — and then executes the
original function body verbatim against that binding. -/
theorem C1_amended_fixed_binding (env : Env) (path : String) (fn : ItemFn)
    (p : Pat) (ty : String) (text : String) (cases : List Value)
    (hin : fn.inputs = [FnArg.typed p ty])
    (hread : env.readFile path = .ok text)
    (hdec : decodeByExt env path (lowerExt path) text = .ok cases)
    (i : Nat) (hi : i < cases.length) (s : String)
    (hser : env.toJsonString (cases.get ⟨i, hi⟩) = .ok s)
    (hexpr : env.parseExpr (exprSrc ty s) = .ok ()) :
    ∃ units, datafile_test env path fn = .ok units ∧
      units.get? i = some (GenUnit.testFn (fn.ident ++ "_case_" ++ toString i)
        "testcase" ty s fn.body) := by
  refine ⟨genUnits env fn.ident ty fn.body cases, ?_, ?_⟩
  · rw [datafile_test_typed env path fn p ty hin,
      expandTyped_ok env path fn.ident ty fn.body text cases hread hdec]
  · rw [genUnits_get? env fn.ident ty fn.body cases i hi,
      genUnit_ok env fn.ident ty fn.body i _ s hser hexpr]

/-- C1 amended witness: concrete run of the engine on `fnX`. -/
theorem C1_amended_fixed_binding_witness :
    ∃ units, datafile_test envOk "tests/t.json" fnX = .ok units ∧
      units.get? 0 = some (GenUnit.testFn "mytest_case_0" "testcase"
        "TestCase" "1" "assert(x)") :=
  C1_amended_fixed_binding envOk "tests/t.json" fnX (Pat.ident "x") "TestCase"
    "[1]" [Value.num 1] rfl rfl rfl 0 (by decide) "1" rfl rfl

/-- C2 counterexample: with re-serialization failing on entry 0 of a
two-entry file (`envSerFail`), generation does not abort: the engine
returns an emitted fragment (`.ok`, not a diagnostic `.error`), and
that fragment still contains the generated test unit of entry 1. -/
theorem C2_counterexample :
    datafile_test envSerFail "tests/t.json" fnTc =
      .ok [GenUnit.compileError (toJsonErr "boom"),
        GenUnit.testFn "mytest_case_1" "testcase" "TestCase" "1"
          "check(testcase)"] ∧
    ∀ e, datafile_test envSerFail "tests/t.json" fnTc ≠ .error e := by
  have base : datafile_test envSerFail "tests/t.json" fnTc =
      .ok [GenUnit.compileError (toJsonErr "boom"),
        GenUnit.testFn "mytest_case_1" "testcase" "TestCase" "1"
          "check(testcase)"] := rfl
  refine ⟨base, fun e h => ?_⟩
  rw [base] at h
  exact Except.noConfusion h

/-- C2 (amended): if re-serialization of the entry at index `k` fails,
generation for the annotated function does not abort: the engine still
emits one fragment element per entry, with an inline compile-error
diagnostic naming the failure substituted at position `k` (the embedded
`compile_error!` then fails the build of the expanded code, but sibling
entries' units are present in the fragment). -/
theorem C2_amended_per_entry_error (env : Env) (path : String) (fn : ItemFn)
    (p : Pat) (ty : String) (text : String) (cases : List Value)
    (hin : fn.inputs = [FnArg.typed p ty])
    (hread : env.readFile path = .ok text)
    (hdec : decodeByExt env path (lowerExt path) text = .ok cases)
    (k : Nat) (hk : k < cases.length) (e : String)
    (hser : env.toJsonString (cases.get ⟨k, hk⟩) = .error e) :
    ∃ units, datafile_test env path fn = .ok units ∧
      units.length = cases.length ∧
      units.get? k = some (GenUnit.compileError (toJsonErr e)) := by
  refine ⟨genUnits env fn.ident ty fn.body cases, ?_, ?_, ?_⟩
  · rw [datafile_test_typed env path fn p ty hin,
      expandTyped_ok env path fn.ident ty fn.body text cases hread hdec]
  · exact genUnitsFrom_length env fn.ident ty fn.body 0 cases
  · rw [genUnits_get? env fn.ident ty fn.body cases k hk,
      genUnit_serErr env fn.ident ty fn.body k _ e hser]

/-- C2 amended witness: concrete run on `envSerFail`. -/
theorem C2_amended_per_entry_error_witness :
    ∃ units, datafile_test envSerFail "tests/t.json" fnTc = .ok units ∧
      units.length = 2 ∧
      units.get? 0 = some (GenUnit.compileError (toJsonErr "boom")) :=
  C2_amended_per_entry_error envSerFail "tests/t.json" fnTc
    (Pat.ident "testcase") "TestCase" "[null,1]" [Value.null, Value.num 1]
    rfl rfl rfl 0 (by decide) "boom" rfl

/-- C3: for every valid data file whose decoded top-level sequence has
`n` entries (`n = 0` included, which still yields `.ok`), generation
produces exactly `n` fragment elements in document order, and the unit
of entry `i` is named `<fn>_case_<i>` — a term built from the original
function name and the index only, never from entry content (the
`cases` list is universally quantified and absent from the name). -/
theorem C3_unit_count_and_names (env : Env) (path : String) (fn : ItemFn)
    (p : Pat) (ty : String) (text : String) (cases : List Value)
    (hin : fn.inputs = [FnArg.typed p ty])
    (hread : env.readFile path = .ok text)
    (hdec : decodeByExt env path (lowerExt path) text = .ok cases) :
    ∃ units, datafile_test env path fn = .ok units ∧
      units.length = cases.length ∧
      ∀ (i : Nat) (hi : i < cases.length) (s : String),
        env.toJsonString (cases.get ⟨i, hi⟩) = .ok s →
        env.parseExpr (exprSrc ty s) = .ok () →
        units.get? i = some (GenUnit.testFn (fn.ident ++ "_case_" ++ toString i)
          "testcase" ty s fn.body) := by
  refine ⟨genUnits env fn.ident ty fn.body cases, ?_, ?_, ?_⟩
  · rw [datafile_test_typed env path fn p ty hin,
      expandTyped_ok env path fn.ident ty fn.body text cases hread hdec]
  · exact genUnitsFrom_length env fn.ident ty fn.body 0 cases
  · intro i hi s hser hexpr
    rw [genUnits_get? env fn.ident ty fn.body cases i hi,
      genUnit_ok env fn.ident ty fn.body i _ s hser hexpr]

/-- C3 witness: a two-entry file produces exactly the two units
`mytest_case_0`, `mytest_case_1`, in document order. -/
theorem C3_unit_count_and_names_witness :
    ∃ units, datafile_test envOk2 "tests/t.json" fnTc = .ok units ∧
      units.length = 2 ∧
      units.get? 0 = some (GenUnit.testFn "mytest_case_0" "testcase"
        "TestCase" "1" "check(testcase)") ∧
      units.get? 1 = some (GenUnit.testFn "mytest_case_1" "testcase"
        "TestCase" "2" "check(testcase)") := by
  obtain ⟨units, h1, h2, h3⟩ := C3_unit_count_and_names envOk2 "tests/t.json"
    fnTc (Pat.ident "testcase") "TestCase" "[1,2]" [Value.num 1, Value.num 2]
    rfl rfl rfl
  exact ⟨units, h1, h2, h3 0 (by decide) "1" rfl rfl, h3 1 (by decide) "2" rfl rfl⟩

/-- C4 counterexample: a tuple-pattern parameter and a reference-typed
parameter are both accepted by the expansion — generation succeeds and
returns no generation-time error, contrary to the claim that patterns
and reference/borrow forms are rejected. -/
theorem C4_counterexample :
    datafile_test envOk "tests/t.json" fnPat =
      .ok [GenUnit.testFn "mytest_case_0" "testcase" "(i32, i32)" "1"
        "assert(a + b > 0)"] ∧
    datafile_test envOk "tests/t.json" fnRef =
      .ok [GenUnit.testFn "mytest_case_0" "testcase" "&TestCase" "1"
        "check(testcase)"] ∧
    (∀ e, datafile_test envOk "tests/t.json" fnPat ≠ .error e) ∧
    (∀ e, datafile_test envOk "tests/t.json" fnRef ≠ .error e) := by
  have hp : datafile_test envOk "tests/t.json" fnPat =
      .ok [GenUnit.testFn "mytest_case_0" "testcase" "(i32, i32)" "1"
        "assert(a + b > 0)"] := rfl
  have hr : datafile_test envOk "tests/t.json" fnRef =
      .ok [GenUnit.testFn "mytest_case_0" "testcase" "&TestCase" "1"
        "check(testcase)"] := rfl
  refine ⟨hp, hr, fun e h => ?_, fun e h => ?_⟩
  · rw [hp] at h; exact Except.noConfusion h
  · rw [hr] at h; exact Except.noConfusion h

/-- C4 (amended): of the single-argument shapes, only a `self` receiver
is rejected at generation time (with the structured-argument
diagnostic); any typed binding is accepted whatever its pattern or its
type — expansion proceeds on the rendered type alone, and a pattern or
reference form can only fail later, when the generated code is
compiled. -/
theorem C4_amended_receiver_only (env : Env) (path : String) (fn : ItemFn) :
    (fn.inputs = [FnArg.receiver] →
      datafile_test env path fn = .error argShapeErr) ∧
    (∀ p ty, fn.inputs = [FnArg.typed p ty] →
      datafile_test env path fn = expandTyped env path fn.ident ty fn.body) := by
  constructor
  · intro h
    unfold datafile_test
    rw [h]
    rfl
  · intro p ty h
    exact datafile_test_typed env path fn p ty h

/-- C4 amended witness: the receiver is rejected; the tuple-pattern
binding expands. -/
theorem C4_amended_receiver_only_witness :
    datafile_test envOk "tests/t.json" fnSelf = .error argShapeErr ∧
    datafile_test envOk "tests/t.json" fnPat =
      expandTyped envOk "tests/t.json" "mytest" "(i32, i32)" "assert(a + b > 0)" :=
  ⟨(C4_amended_receiver_only envOk "tests/t.json" fnSelf).1 rfl,
    (C4_amended_receiver_only envOk "tests/t.json" fnPat).2
      (Pat.tuple [Pat.ident "a", Pat.ident "b"]) "(i32, i32)" rfl⟩

/-- C5: a function whose parameter count is not exactly 1 is rejected
at generation time with the arity-specific diagnostic of lines
66-73. -/
theorem C5_arity_error (env : Env) (path : String) (fn : ItemFn)
    (h : fn.inputs.length ≠ 1) :
    datafile_test env path fn = .error arityErr := by
  unfold datafile_test
  rw [if_pos h]

/-- C5 witness: a 0-parameter and a 2-parameter function are both
rejected with the arity message. -/
theorem C5_arity_error_witness :
    datafile_test envOk "tests/t.json" fnZero = .error arityErr ∧
    datafile_test envOk "tests/t.json" fnTwo = .error arityErr :=
  ⟨C5_arity_error envOk "tests/t.json" fnZero (by decide),
    C5_arity_error envOk "tests/t.json" fnTwo (by decide)⟩

/-- C6: the decoding format is selected strictly by the lower-cased
file extension.  With `env` (and in particular both decoders)
universally quantified: a `json` extension invokes only the JSON
decoder, whose outcome alone determines the result — so a `.json` file
whose content only the YAML decoder accepts fails generation,
whatever `yamlDecode` would say; `yaml`/`yml` invoke only the YAML
decoder; any other extension (including the empty one of an
extension-less path) is the unsupported-extension error. -/
theorem C6_extension_dispatch (env : Env) (path : String) (fn : ItemFn)
    (p : Pat) (ty : String) (text : String)
    (hin : fn.inputs = [FnArg.typed p ty])
    (hread : env.readFile path = .ok text) :
    (lowerExt path = "json" →
      (∀ cases, env.jsonDecode text = .ok cases →
        datafile_test env path fn = .ok (genUnits env fn.ident ty fn.body cases)) ∧
      (∀ e, env.jsonDecode text = .error e →
        datafile_test env path fn = .error (jsonParseErr path e))) ∧
    ((lowerExt path = "yaml" ∨ lowerExt path = "yml") →
      (∀ cases, env.yamlDecode text = .ok cases →
        datafile_test env path fn = .ok (genUnits env fn.ident ty fn.body cases)) ∧
      (∀ e, env.yamlDecode text = .error e →
        datafile_test env path fn = .error (yamlParseErr path e))) ∧
    (lowerExt path ≠ "json" → lowerExt path ≠ "yaml" → lowerExt path ≠ "yml" →
      datafile_test env path fn = .error (unsupportedExtErr (lowerExt path))) := by
  rw [datafile_test_typed env path fn p ty hin,
    expandTyped_eq env path fn.ident ty fn.body text hread]
  refine ⟨fun hx => ⟨fun cases hc => ?_, fun e he => ?_⟩,
    fun hx => ⟨fun cases hc => ?_, fun e he => ?_⟩,
    fun h1 h2 h3 => ?_⟩
  · rw [hx, decodeByExt_json env path text, hc]
  · rw [hx, decodeByExt_json env path text, he]
  · rw [decodeByExt_yaml env path text (lowerExt path) hx, hc]
  · rw [decodeByExt_yaml env path text (lowerExt path) hx, he]
  · rw [decodeByExt_other env path text (lowerExt path) h1 h2 h3]

/-- C6 witness: with `envSniff`, whose YAML decoder accepts the file
text and whose JSON decoder rejects it, the upper-cased `.JSON` path
still fails generation with the JSON diagnostic (no content sniffing),
a `.yml` path decodes through the YAML decoder, and a `.txt` path is
the unsupported-extension error. -/
theorem C6_extension_dispatch_witness :
    datafile_test envSniff "tests/data.JSON" fnTc =
      .error (jsonParseErr "tests/data.JSON" "expected value at line 1 column 1") ∧
    datafile_test envSniff "tests/data.yml" fnTc =
      .ok (genUnits envSniff "mytest" "TestCase" "check(testcase)"
        [Value.obj [("a", Value.num 1)]]) ∧
    datafile_test envSniff "tests/data.txt" fnTc =
      .error (unsupportedExtErr "txt") :=
  ⟨((C6_extension_dispatch envSniff "tests/data.JSON" fnTc
      (Pat.ident "testcase") "TestCase" "a: 1" rfl rfl).1 rfl).2
      "expected value at line 1 column 1" rfl,
    ((C6_extension_dispatch envSniff "tests/data.yml" fnTc
      (Pat.ident "testcase") "TestCase" "a: 1" rfl rfl).2.1 (Or.inr rfl)).1
      [Value.obj [("a", Value.num 1)]] rfl,
    (C6_extension_dispatch envSniff "tests/data.txt" fnTc
      (Pat.ident "testcase") "TestCase" "a: 1" rfl rfl).2.2
      (by decide) (by decide) (by decide)⟩

/-- C7: when decoding the data file fails — the selected decoder
rejects the text, whether for malformed syntax or for a well-formed
document whose top level is not a sequence (both are failures of
`from_str::<Vec<Value>>`) — expansion returns a generation-time
diagnostic whose text ends with the underlying decoder message, and no
units are produced. -/
theorem C7_decode_failure (env : Env) (path : String) (fn : ItemFn)
    (p : Pat) (ty : String) (text d : String)
    (hin : fn.inputs = [FnArg.typed p ty])
    (hread : env.readFile path = .ok text)
    (hfail : (lowerExt path = "json" ∧ env.jsonDecode text = .error d) ∨
      ((lowerExt path = "yaml" ∨ lowerExt path = "yml") ∧
        env.yamlDecode text = .error d)) :
    ∃ pre, datafile_test env path fn = .error (pre ++ d) ∧
      ∀ units, datafile_test env path fn ≠ .ok units := by
  rw [datafile_test_typed env path fn p ty hin,
    expandTyped_eq env path fn.ident ty fn.body text hread]
  rcases hfail with ⟨hx, he⟩ | ⟨hx, he⟩
  · refine ⟨"Failed to parse JSON file '" ++ rustDebug path ++ "': ", ?_, ?_⟩
    · rw [hx, decodeByExt_json env path text, he]
      rfl
    · intro units h
      rw [hx, decodeByExt_json env path text, he] at h
      exact Except.noConfusion h
  · refine ⟨"Failed to parse YAML file '" ++ rustDebug path ++ "': ", ?_, ?_⟩
    · rw [decodeByExt_yaml env path text (lowerExt path) hx, he]
      rfl
    · intro units h
      rw [decodeByExt_yaml env path text (lowerExt path) hx, he] at h
      exact Except.noConfusion h

/-- C7 witness: the YAML decoder's rejection of a top-level map is
surfaced as a generation error carrying the decoder message. -/
theorem C7_decode_failure_witness :
    ∃ pre, datafile_test envYamlBad "tests/t.yml" fnTc =
      .error (pre ++ "invalid type: map, expected a sequence") ∧
      ∀ units, datafile_test envYamlBad "tests/t.yml" fnTc ≠ .ok units :=
  C7_decode_failure envYamlBad "tests/t.yml" fnTc (Pat.ident "testcase")
    "TestCase" "a: 1" "invalid type: map, expected a sequence" rfl rfl
    (Or.inr ⟨Or.inr rfl, rfl⟩)

/-- C8: an entry whose canonical JSON text does not deserialize into
the declared parameter type does not disturb generation — the engine
still returns an emitted fragment — and the failure is deferred to the
generated unit's own execution: running unit `k` panics with the
deserializer's message, while any sibling unit `j` whose entry
deserializes runs the original body to completion, unaffected. -/
theorem C8_deferred_failure {β ρ : Type} (env : Env) (path : String)
    (fn : ItemFn) (p : Pat) (ty : String) (text : String) (cases : List Value)
    (hin : fn.inputs = [FnArg.typed p ty])
    (hread : env.readFile path = .ok text)
    (hdec : decodeByExt env path (lowerExt path) text = .ok cases)
    (deser : String → Except String β) (runBody : String → β → ρ)
    (k : Nat) (hk : k < cases.length) (sk m : String)
    (hserk : env.toJsonString (cases.get ⟨k, hk⟩) = .ok sk)
    (hexprk : env.parseExpr (exprSrc ty sk) = .ok ())
    (hdeser : deser sk = .error m) :
    ∃ units, datafile_test env path fn = .ok units ∧
      (units.get? k).map (runUnit deser runBody) =
        some (some (RunOutcome.panicked m)) ∧
      ∀ (j : Nat) (hj : j < cases.length) (s : String) (v : β),
        env.toJsonString (cases.get ⟨j, hj⟩) = .ok s →
        env.parseExpr (exprSrc ty s) = .ok () →
        deser s = .ok v →
        (units.get? j).map (runUnit deser runBody) =
          some (some (RunOutcome.finished (runBody fn.body v))) := by
  refine ⟨genUnits env fn.ident ty fn.body cases, ?_, ?_, ?_⟩
  · rw [datafile_test_typed env path fn p ty hin,
      expandTyped_ok env path fn.ident ty fn.body text cases hread hdec]
  · rw [genUnits_get? env fn.ident ty fn.body cases k hk,
      genUnit_ok env fn.ident ty fn.body k _ sk hserk hexprk]
    simp [runUnit, hdeser]
  · intro j hj s v hser hexpr hds
    rw [genUnits_get? env fn.ident ty fn.body cases j hj,
      genUnit_ok env fn.ident ty fn.body j _ s hser hexpr]
    simp [runUnit, hds]

/-- The deserializer of the witness's declared parameter type: entry
text `"1"` does not match the type's contract, entry text `"2"`
deserializes to the value `7`. -/
def deserW : String → Except String Nat :=
  fun s => if s = "1" then .error "missing field" else .ok 7

/-- The witness's interpretation of the verbatim body: return the bound
value. -/
def runBodyW : String → Nat → Nat := fun _ v => v

/-- C8 witness: unit 0 panics with the deserializer's message at its
own execution; unit 1 finishes, unaffected; generation succeeded. -/
theorem C8_deferred_failure_witness :
    ∃ units, datafile_test envOk2 "tests/t.json" fnTc = .ok units ∧
      (units.get? 0).map (runUnit deserW runBodyW) =
        some (some (RunOutcome.panicked "missing field")) ∧
      (units.get? 1).map (runUnit deserW runBodyW) =
        some (some (RunOutcome.finished 7)) := by
  obtain ⟨units, h1, h2, h3⟩ := C8_deferred_failure envOk2 "tests/t.json" fnTc
    (Pat.ident "testcase") "TestCase" "[1,2]" [Value.num 1, Value.num 2]
    rfl rfl rfl deserW runBodyW 0 (by decide) "1" "missing field" rfl rfl rfl
  exact ⟨units, h1, h2, h3 1 (by decide) "2" 7 rfl rfl rfl⟩

/-- C9: the unit generated for entry `i` embeds exactly entry `i`'s
canonical JSON text `s` (document order preserved, the source format —
JSON or YAML — decided only by `hdec`), so whenever the declared type's
deserializer and re-serializer are lossless on that entry (the
structured-serialization library's contract), the value bound in unit
`i` re-serializes to a value structurally equal to entry `i`. -/
theorem C9_roundtrip {β : Type} (env : Env) (path : String) (fn : ItemFn)
    (p : Pat) (ty : String) (text : String) (cases : List Value)
    (hin : fn.inputs = [FnArg.typed p ty])
    (hread : env.readFile path = .ok text)
    (hdec : decodeByExt env path (lowerExt path) text = .ok cases)
    (deser : String → Except String β) (reser : β → Value)
    (i : Nat) (hi : i < cases.length) (s : String)
    (hser : env.toJsonString (cases.get ⟨i, hi⟩) = .ok s)
    (hexpr : env.parseExpr (exprSrc ty s) = .ok ())
    (hcontract : ∀ s2, env.toJsonString (cases.get ⟨i, hi⟩) = .ok s2 →
      ∃ t, deser s2 = .ok t ∧ reser t = cases.get ⟨i, hi⟩) :
    ∃ units t, datafile_test env path fn = .ok units ∧
      units.get? i = some (GenUnit.testFn (fn.ident ++ "_case_" ++ toString i)
        "testcase" ty s fn.body) ∧
      deser s = .ok t ∧
      reser t = cases.get ⟨i, hi⟩ := by
  obtain ⟨t, hds, hrs⟩ := hcontract s hser
  refine ⟨genUnits env fn.ident ty fn.body cases, t, ?_, ?_, hds, hrs⟩
  · rw [datafile_test_typed env path fn p ty hin,
      expandTyped_ok env path fn.ident ty fn.body text cases hread hdec]
  · rw [genUnits_get? env fn.ident ty fn.body cases i hi,
      genUnit_ok env fn.ident ty fn.body i _ s hser hexpr]

/-- The witness's deserializer at the `Value` level: inverts the
canonical texts of `envOk2`. -/
def deserV : String → Except String Value :=
  fun s =>
    if s = "1" then .ok (Value.num 1)
    else if s = "2" then .ok (Value.num 2)
    else .error "bad"

/-- The witness's re-serializer. -/
def reserV : Value → Value := fun v => v

/-- C9 witness: round trip of entry 1 of a JSON-extension file and of
entry 0 of a YAML-extension file, through the same engine. -/
theorem C9_roundtrip_witness :
    (∃ units t, datafile_test envOk2 "tests/t.json" fnTc = .ok units ∧
      units.get? 1 = some (GenUnit.testFn "mytest_case_1" "testcase"
        "TestCase" "2" "check(testcase)") ∧
      deserV "2" = .ok t ∧ reserV t = Value.num 2) ∧
    (∃ units t, datafile_test envOk2 "tests/t.yml" fnTc = .ok units ∧
      units.get? 0 = some (GenUnit.testFn "mytest_case_0" "testcase"
        "TestCase" "1" "check(testcase)") ∧
      deserV "1" = .ok t ∧ reserV t = Value.num 1) :=
  ⟨C9_roundtrip envOk2 "tests/t.json" fnTc (Pat.ident "testcase") "TestCase"
      "[1,2]" [Value.num 1, Value.num 2] rfl rfl rfl deserV reserV
      1 (by decide) "2" rfl rfl
      (fun s2 h => by cases h; exact ⟨Value.num 2, rfl, rfl⟩),
    C9_roundtrip envOk2 "tests/t.yml" fnTc (Pat.ident "testcase") "TestCase"
      "[1,2]" [Value.num 1, Value.num 2] rfl rfl rfl deserV reserV
      0 (by decide) "1" rfl rfl
      (fun s2 h => by cases h; exact ⟨Value.num 1, rfl, rfl⟩)⟩

/-- C10: when re-serialization fails at index `k`, the emitted fragment
still contains a synthesized test unit for every other entry whose
re-serialization and expression parse succeed, with the compile-error
token substituted at position `k`: per-entry failure handling inside
the generation loop never removes sibling entries' units. -/
theorem C10_siblings_survive (env : Env) (path : String) (fn : ItemFn)
    (p : Pat) (ty : String) (text : String) (cases : List Value)
    (hin : fn.inputs = [FnArg.typed p ty])
    (hread : env.readFile path = .ok text)
    (hdec : decodeByExt env path (lowerExt path) text = .ok cases)
    (k : Nat) (hk : k < cases.length) (e : String)
    (hser : env.toJsonString (cases.get ⟨k, hk⟩) = .error e) :
    ∃ units, datafile_test env path fn = .ok units ∧
      units.get? k = some (GenUnit.compileError (toJsonErr e)) ∧
      ∀ (j : Nat) (hj : j < cases.length) (s : String),
        j ≠ k →
        env.toJsonString (cases.get ⟨j, hj⟩) = .ok s →
        env.parseExpr (exprSrc ty s) = .ok () →
        units.get? j = some (GenUnit.testFn (fn.ident ++ "_case_" ++ toString j)
          "testcase" ty s fn.body) := by
  refine ⟨genUnits env fn.ident ty fn.body cases, ?_, ?_, ?_⟩
  · rw [datafile_test_typed env path fn p ty hin,
      expandTyped_ok env path fn.ident ty fn.body text cases hread hdec]
  · rw [genUnits_get? env fn.ident ty fn.body cases k hk,
      genUnit_serErr env fn.ident ty fn.body k _ e hser]
  · intro j hj s _hne hser2 hexpr
    rw [genUnits_get? env fn.ident ty fn.body cases j hj,
      genUnit_ok env fn.ident ty fn.body j _ s hser2 hexpr]

/-- C10 witness: entry 0's re-serialization fails, entry 1's unit is
still present in the fragment. -/
theorem C10_siblings_survive_witness :
    ∃ units, datafile_test envSerFail "tests/t.json" fnTc = .ok units ∧
      units.get? 0 = some (GenUnit.compileError (toJsonErr "boom")) ∧
      units.get? 1 = some (GenUnit.testFn "mytest_case_1" "testcase"
        "TestCase" "1" "check(testcase)") := by
  obtain ⟨units, h1, h2, h3⟩ := C10_siblings_survive envSerFail "tests/t.json"
    fnTc (Pat.ident "testcase") "TestCase" "[null,1]" [Value.null, Value.num 1]
    rfl rfl rfl 0 (by decide) "boom" rfl
  exact ⟨units, h1, h2, h3 1 (by decide) "1" (by decide) rfl rfl⟩

end DatafileTest
